import Mathlib

/-!
Verification of the fruit-matjip-pos receipt-printer bridge.

The JavaScript sources are embedded shallowly:
* a JS string is a `List Nat` of its UTF-16 code units (`JStr`);
* the layout engine (`alignText`, `formatAmount`, `formatPrice`, `formatRow`)
  is translated function by function from the formatter module;
* the command-buffer builder `buildReceipt` is translated as the ordered list
  of printer commands it emits;
* the Windows spooler transport (`initPrinter`, `printReceipt`) is translated
  with explicit state passing, the outcome of the external spooler call being
  a parameter.
-/

namespace FruitPos

/-- JS string modelled as the list of its UTF-16 code units. -/
abbrev JStr := List Nat

/-- ASCII space code unit. -/
def sp : Nat := 0x20

/-- Run of `n` spaces, the translation of `' '.repeat(n)`. -/
def spaces (n : Nat) : JStr := List.replicate n sp

/-- Decidable test for the Hangul syllable block, the translation of the
regex class `[가-힣]` used throughout the formatter. -/
def isKorean (u : Nat) : Bool := decide (0xAC00 ≤ u ∧ u ≤ 0xD7A3)

/-- Number of code units of `s` matched by `[가-힣]`, the translation
of `(text.match(/[가-힣]/g) || []).length`. -/
def countKorean (s : JStr) : Nat := s.countP isKorean

/-- Cell count of one code unit on the 32-cell paper: 2 for a Hangul syllable,
1 for anything else (the documented double-width rule). -/
def charCells (u : Nat) : Nat := if isKorean u then 2 else 1

/-- Visual width of a string in print cells, per the 2-cells-per-syllable rule. -/
def visualWidth (s : JStr) : Nat := (s.map charCells).sum

/-- Translation of `String.prototype.padStart(n, c)` for a one-unit pad
character `c`. -/
def padStart (s : JStr) (n : Nat) (c : Nat) : JStr :=
  List.replicate (n - s.length) c ++ s

/-- Mode string `'left'`. -/
def strLeft : JStr := [0x6C, 0x65, 0x66, 0x74]

/-- Mode string `'center'`. -/
def strCenter : JStr := [0x63, 0x65, 0x6E, 0x74, 0x65, 0x72]

/-- Mode string `'right'`. -/
def strRight : JStr := [0x72, 0x69, 0x67, 0x68, 0x74]

/-- Translation of `alignText(text, align, width)` from the formatter module:
actual width is `text.length` plus one extra cell per Hangul syllable; text at
or above the budget is returned unchanged; otherwise the padding is placed
according to the `align` string (any string other than `'center'` and
`'right'` behaves as `'left'`, as in the source's `else` branch). -/
def alignText (text : JStr) (align : JStr) (width : Nat) : JStr :=
  let koreanCount := countKorean text
  let actualWidth := text.length + koreanCount
  if width ≤ actualWidth then text
  else
    let padding := width - actualWidth
    if align = strCenter then
      let leftPad := padding / 2
      let rightPad := padding - leftPad
      spaces leftPad ++ text ++ spaces rightPad
    else if align = strRight then
      spaces padding ++ text
    else
      text ++ spaces padding

/-- Little-endian ASCII digits of `n+1`-style fuelled recursion; translation
helper for `String(n)` and `Number.prototype.toLocaleString`. -/
def digitsRevAux : Nat → Nat → List Nat
  | 0, _ => []
  | _ + 1, 0 => []
  | fuel + 1, n + 1 => ((n + 1) % 10 + 0x30) :: digitsRevAux fuel ((n + 1) / 10)

/-- Translation of `String(n)` for a non-negative integer `n`. -/
def jsStringOfNat (n : Nat) : JStr :=
  if n = 0 then [0x30] else (digitsRevAux n n).reverse

/-- Comma code unit. -/
def comma : Nat := 0x2C

/-- Thousands grouping on a little-endian digit list: a comma after every
three digits from the least significant end.  Fuelled structural recursion. -/
def commaRevAux : Nat → List Nat → List Nat
  | 0, ds => ds
  | fuel + 1, ds =>
    if ds.length ≤ 3 then ds
    else ds.take 3 ++ comma :: commaRevAux fuel (ds.drop 3)

/-- Modelled from the runtime: `n.toLocaleString('ko-KR')` for a non-negative
integer renders the decimal digits with a comma as thousands separator. -/
def jsLocaleString (n : Nat) : JStr :=
  if n = 0 then [0x30]
  else (commaRevAux n (digitsRevAux n n)).reverse

/-- Currency suffix `'원'` (U+C6D0). -/
def wonSuffix : JStr := [0xC6D0]

/-- Translation of `formatAmount(amount)`: locale-formatted digits followed by
the currency suffix. -/
def formatAmount (amount : Nat) : JStr := jsLocaleString amount ++ wonSuffix

/-- Translation of `formatPrice(amount, width)`: right-pads the formatted
amount using the plain length of the formatted string
(`Math.max(0, width - formatted.length)` is Nat subtraction here). -/
def formatPrice (amount : Nat) (width : Nat) : JStr :=
  let formatted := formatAmount amount
  let padding := width - formatted.length
  spaces padding ++ formatted

/-- Translation of `formatRow(label, value, width)`: label, a space gutter of
`Math.max(0, width - labelWidth - valueWidth)` cells, then the value. -/
def formatRow (label : JStr) (value : JStr) (width : Nat) : JStr :=
  let labelWidth := label.length + countKorean label
  let valueWidth := value.length + countKorean value
  let padding := width - (labelWidth + valueWidth)
  label ++ spaces padding ++ value

/-! ### Command-buffer builder -/

/-- Printer commands appended to the ESC/POS command buffer, one constructor
per `node-thermal-printer` method used by the builder. -/
inductive Cmd where
  | alignCenter
  | alignLeft
  | drawLine
  | setTextQuadArea
  | setTextNormal
  | setTextDoubleHeight
  | boldOn
  | boldOff
  | println (s : JStr)
  | newLine
  | cut
  deriving DecidableEq, Repr

/-- Components of the parsed payment timestamp `new Date(paidAt)`:
`month` is the result of `getMonth()` (0-based), the other fields are the
corresponding local-time getters. -/
structure DateParts where
  year : Nat
  month : Nat
  day : Nat
  hour : Nat
  minute : Nat
  second : Nat
  deriving DecidableEq, Repr

/-- Line item of an order: `{ productName, quantity, amount }`. -/
structure Item where
  productName : JStr
  quantity : Nat
  amount : Nat
  deriving DecidableEq, Repr

/-- Receipt document destructured by `buildReceipt`; nullable or optional
JSON fields are `Option`s. -/
structure ReceiptData where
  orderId : Nat
  displayCode : Option JStr
  paidAt : DateParts
  deliveryHour : Option Nat
  deliveryMinute : Option Nat
  buyerName : JStr
  phone : JStr
  items : List Item
  totalProductAmount : Nat
  deliveryFee : Nat
  distanceKm : Nat
  address1 : JStr
  address2 : Option JStr
  scheduledDeliveryHour : Option Nat
  scheduledDeliveryMinute : Option Nat
  deriving DecidableEq, Repr

/-- Translation of `isScheduled = scheduledDeliveryHour != null`; note that
a loose `!= null` test is `true` for the number `0`. -/
def isScheduled (d : ReceiptData) : Bool := d.scheduledDeliveryHour.isSome

/-- Translation of `String(x)` for a nullable number: `String(null)` is the
four-character string `"null"`. -/
def jsStringOfOptNat : Option Nat → JStr
  | some n => jsStringOfNat n
  | none => [0x6E, 0x75, 0x6C, 0x6C]

/-- Two-digit zero pad, the translation of `.padStart(2, '0')`. -/
def pad2 (s : JStr) : JStr := padStart s 2 0x30

/-- Colon code unit. -/
def colon : Nat := 0x3A

/-- Translation of the `orderDate` template:
`YYYY-MM-DD HH:MM:SS` from the parsed date parts. -/
def orderDate (d : ReceiptData) : JStr :=
  jsStringOfNat d.paidAt.year ++ [0x2D] ++
  pad2 (jsStringOfNat (d.paidAt.month + 1)) ++ [0x2D] ++
  pad2 (jsStringOfNat d.paidAt.day) ++ [sp] ++
  pad2 (jsStringOfNat d.paidAt.hour) ++ [colon] ++
  pad2 (jsStringOfNat d.paidAt.minute) ++ [colon] ++
  pad2 (jsStringOfNat d.paidAt.second)

/-- Translation of the `deliveryTime` template `HH:MM` built from the
(nullable) plain delivery hour and minute. -/
def deliveryTime (d : ReceiptData) : JStr :=
  pad2 (jsStringOfOptNat d.deliveryHour) ++ [colon] ++
  pad2 (jsStringOfOptNat d.deliveryMinute)

/-- Translation of the `scheduledTime` template: when a scheduled hour is
present, `HH:MM` with `scheduledDeliveryMinute ?? 0` for the minute; the
source keeps `null` otherwise, which is never printed, rendered here as `[]`. -/
def scheduledTime (d : ReceiptData) : JStr :=
  match d.scheduledDeliveryHour with
  | some h => pad2 (jsStringOfNat h) ++ [colon]
      ++ pad2 (jsStringOfNat (d.scheduledDeliveryMinute.getD 0))
  | none => []

/-- Translation of `displayCode || `#${orderId}``; the JS `||` also rejects
the empty string. -/
def orderLabel (d : ReceiptData) : JStr :=
  match d.displayCode with
  | some s => if s = [] then 0x23 :: jsStringOfNat d.orderId else s
  | none => 0x23 :: jsStringOfNat d.orderId

/-- Store name line `'과일맛집1995'`. -/
def storeName : JStr := [0xACFC, 0xC77C, 0xB9DB, 0xC9D1, 0x31, 0x39, 0x39, 0x35]

/-- Banner fragment `'** '`. -/
def bannerPre : JStr := [0x2A, 0x2A, sp]

/-- Banner fragment `' 예약배달 **'`. -/
def bannerSuf : JStr := [sp, 0xC608, 0xC57D, 0xBC30, 0xB2EC, sp, 0x2A, 0x2A]

/-- Header line `'[주문정보]'`. -/
def orderInfoHdr : JStr := [0x5B, 0xC8FC, 0xBB38, 0xC815, 0xBCF4, 0x5D]

/-- Label fragment `'주문일시: '`. -/
def orderDatePre : JStr := [0xC8FC, 0xBB38, 0xC77C, 0xC2DC, colon, sp]

/-- Label fragment `'도착예정: '`. -/
def arrivalPre : JStr := [0xB3C4, 0xCC29, 0xC608, 0xC815, colon, sp]

/-- Label fragment `'배달예정: '`. -/
def deliveryPre : JStr := [0xBC30, 0xB2EC, 0xC608, 0xC815, colon, sp]

/-- Header line `'[고객정보]'`. -/
def custHdr : JStr := [0x5B, 0xACE0, 0xAC1D, 0xC815, 0xBCF4, 0x5D]

/-- Header line `'[배달주소]'`. -/
def addrHdr : JStr := [0x5B, 0xBC30, 0xB2EC, 0xC8FC, 0xC18C, 0x5D]

/-- Hand-written 32-dash separator line of the source. -/
def dashes32 : JStr := List.replicate 32 0x2D

/-- Item-table header line `'상품명       수량   가격    총합'`. -/
def itemTableHdr : JStr :=
  [0xC0C1, 0xD488, 0xBA85, sp, sp, sp, sp, sp, sp, sp, 0xC218, 0xB7C9,
   sp, sp, sp, 0xAC00, 0xACA9, sp, sp, sp, sp, 0xCD1D, 0xD569]

/-- Separator `' / '` between buyer name and phone. -/
def slashSep : JStr := [sp, 0x2F, sp]

/-- Label `'상품합계:'`. -/
def subtotalLbl : JStr := [0xC0C1, 0xD488, 0xD569, 0xACC4, colon]

/-- Label fragment `'배달비('`. -/
def feePre : JStr := [0xBC30, 0xB2EC, 0xBE44, 0x28]

/-- Label fragment `'km):'`. -/
def feeSuf : JStr := [0x6B, 0x6D, 0x29, colon]

/-- Label `'합계:'`. -/
def totalLbl : JStr := [0xD569, 0xACC4, colon]

/-- Translation of one iteration of the item `forEach` loop: the printed
item row.  The source computes the unit price as the JS float division
`amount / quantity`; Nat division coincides with it exactly whenever
`quantity` divides `amount`, the case all theorems below restrict to. -/
def itemRow (it : Item) : JStr :=
  let unitPrice := it.amount / it.quantity
  let nameKoreanCount := countKorean it.productName
  let nameActualWidth := it.productName.length + nameKoreanCount
  let truncatedName :=
    if 14 < nameActualWidth then it.productName.take 7 else it.productName
  let namePadding :=
    14 - (truncatedName.length + countKorean truncatedName)
  let nameField := truncatedName ++ spaces namePadding
  let qtyField := padStart (jsStringOfNat it.quantity) 3 sp
  let unitField := padStart (jsLocaleString unitPrice) 7 sp
  let amtField := padStart (jsLocaleString it.amount) 8 sp
  nameField ++ qtyField ++ unitField ++ amtField

/-- Header block: centered quad-area bold store name between divider lines. -/
def headerBlock : List Cmd :=
  [.alignCenter, .drawLine, .setTextQuadArea, .boldOn, .println storeName,
   .boldOff, .setTextNormal, .alignLeft, .drawLine]

/-- Scheduled-delivery banner, emitted only when `isScheduled`. -/
def bannerBlock (d : ReceiptData) : List Cmd :=
  if isScheduled d then
    [.alignCenter, .setTextDoubleHeight, .boldOn,
     .println (bannerPre ++ scheduledTime d ++ bannerSuf),
     .boldOff, .setTextNormal, .alignLeft]
  else []

/-- Conditional delivery-time line inside the order block: the bold
arrival line when scheduled, else the bold plain delivery line when both
plain fields are non-null, else nothing. -/
def deliveryLineBlock (d : ReceiptData) : List Cmd :=
  if isScheduled d then
    [.boldOn, .println (arrivalPre ++ scheduledTime d), .boldOff]
  else if d.deliveryHour.isSome ∧ d.deliveryMinute.isSome then
    [.boldOn, .println (deliveryPre ++ deliveryTime d), .boldOff]
  else []

/-- Order-information block. -/
def orderBlock (d : ReceiptData) : List Cmd :=
  [.println orderInfoHdr, .setTextDoubleHeight, .boldOn,
   .println (orderLabel d), .boldOff, .setTextNormal,
   .println (orderDatePre ++ orderDate d)]
  ++ deliveryLineBlock d
  ++ [.println dashes32]

/-- Customer block. -/
def customerBlock (d : ReceiptData) : List Cmd :=
  [.println custHdr, .setTextDoubleHeight, .boldOn,
   .println (d.buyerName ++ slashSep ++ d.phone),
   .boldOff, .setTextNormal, .newLine]

/-- Address block; the second line is printed only when truthy. -/
def addressBlock (d : ReceiptData) : List Cmd :=
  [.println addrHdr, .setTextDoubleHeight, .boldOn, .println d.address1]
  ++ (match d.address2 with
      | some a2 => if a2 = [] then [] else [.println a2]
      | none => [])
  ++ [.boldOff, .setTextNormal, .println dashes32]

/-- Item table: header row, one row per item, closing separator. -/
def itemsBlock (d : ReceiptData) : List Cmd :=
  .println itemTableHdr :: d.items.map (fun it => .println (itemRow it))
  ++ [.println dashes32]

/-- Totals block: subtotal row, delivery-fee row, divider, then the grand
total `totalProductAmount + deliveryFee` in the 16-cell row format inside
the quad-area centered segment. -/
def totalsBlock (d : ReceiptData) : List Cmd :=
  [.boldOn,
   .println (formatRow subtotalLbl (formatAmount d.totalProductAmount) 32),
   .println (formatRow (feePre ++ jsStringOfNat d.distanceKm ++ feeSuf)
               (formatAmount d.deliveryFee) 32),
   .boldOff, .drawLine, .alignCenter, .setTextQuadArea, .boldOn,
   .println (formatRow totalLbl
               (formatAmount (d.totalProductAmount + d.deliveryFee)) 16),
   .boldOff, .setTextNormal, .alignLeft, .drawLine]

/-- Trailing blank feed and cut. -/
def trailerBlock : List Cmd := [.newLine, .newLine, .newLine, .cut]

/-- Translation of `buildReceipt(printer, data)`: the ordered sequence of
printer commands emitted into the command buffer. -/
def buildReceipt (d : ReceiptData) : List Cmd :=
  headerBlock ++ bannerBlock d ++ orderBlock d ++ customerBlock d
  ++ addressBlock d ++ itemsBlock d ++ totalsBlock d ++ trailerBlock

/-! ### Transport layer (Windows spooler variant) -/

/-- Device path fragment `'\\\\.\\'` produced by the interface template
(four code units: two backslashes, a dot, a backslash). -/
def devPre : JStr := [0x5C, 0x5C, 0x2E, 0x5C]

/-- Fallback port name `'LPT1'`. -/
def lpt1 : JStr := [0x4C, 0x50, 0x54, 0x31]

/-- Hard-coded default device name `'SEWOO SLK-TS 100'`. -/
def defaultDeviceName : JStr :=
  [0x53, 0x45, 0x57, 0x4F, 0x4F, sp, 0x53, 0x4C, 0x4B, 0x2D, 0x54, 0x53,
   sp, 0x31, 0x30, 0x30]

/-- Configuration of the `ThermalPrinter` instance; only the interface path
varies, the remaining constructor options are constants. -/
structure PrinterConfig where
  interfacePath : JStr
  deriving DecidableEq, Repr

/-- Module-level mutable state of the transport module: the singleton
`printerInstance` and the discovered `sewooPrinterName`. -/
structure TransportState where
  printerInstance : Option PrinterConfig
  sewooPrinterName : Option JStr
  deriving DecidableEq, Repr

/-- Translation of `initPrinter()`.  The results of the two Discovery
queries (`findPrinterPort()` and `findPrinterName()`) are passed as
parameters since they shell out to `wmic`; both return `null` on any
failure or absent match.  Returns the printer handed to the caller and the
updated module state.  When an instance is cached, Discovery is not invoked
and the state is unchanged; otherwise the interface path is
`'\\\\.\\' + (port || 'LPT1')` and the discovered name (possibly null) is
stored. -/
def initPrinter (st : TransportState) (port findName : Option JStr) :
    PrinterConfig × TransportState :=
  match st.printerInstance with
  | some p => (p, st)
  | none =>
    let cfg : PrinterConfig := { interfacePath := devPre ++ port.getD lpt1 }
    (cfg, { printerInstance := some cfg, sewooPrinterName := findName })

/-- Outcome of the external `execSync(powershell ...)` spooler submission:
success, or a thrown error (spooler rejection via `Write-Error`/`exit 1`,
nonzero exit, timeout, or any other exception) carrying its message. -/
inductive SpoolOutcome where
  | ok
  | fail (msg : JStr)
  deriving DecidableEq, Repr

/-- Return-or-throw result of an async call. -/
inductive JsResult where
  | ok
  | error (msg : JStr)
  deriving DecidableEq, Repr

/-- Result of one `printReceipt` attempt: the returned value or raised
error, the printer command buffer afterwards, the set of staged files on
disk afterwards, and the spooler submission that was made, if any, as the
pair (device name, staged file path). -/
structure PrintAttempt where
  result : JsResult
  buffer : Option JStr
  disk : List JStr
  submitted : Option (JStr × JStr)
  deriving DecidableEq, Repr

/-- Error message `'출력할 데이터가 없습니다'`. -/
def noDataMsg : JStr :=
  [0xCD9C, 0xB825, 0xD560, sp, 0xB370, 0xC774, 0xD130, 0xAC00, sp,
   0xC5C6, 0xC2B5, 0xB2C8, 0xB2E4]

/-- Error-message fragment `'프린터 출력 오류: '`. -/
def errPre : JStr :=
  [0xD504, 0xB9B0, 0xD130, sp, 0xCD9C, 0xB825, sp, 0xC624, 0xB958,
   colon, sp]

/-- Translation of the spooler-strategy `printReceipt(printer)`.
`buffer` is `printer.getBuffer()` (`none` for a null buffer), `name` is the
module-level `sewooPrinterName`, `tmpBin` the fresh staged `.bin` path,
`disk` the staged files already on disk, and `outcome` the behaviour of the
external spooler call.  On a null buffer it throws before staging anything;
otherwise it stages the file, submits under `sewooPrinterName ||
'SEWOO SLK-TS 100'`, clears the buffer only on success, rethrows the
original message wrapped in `'프린터 출력 오류: '` on failure, and removes
the staged file in the `finally` block on every path. -/
def printReceipt (buffer : Option JStr) (name : Option JStr) (tmpBin : JStr)
    (disk : List JStr) (outcome : SpoolOutcome) : PrintAttempt :=
  match buffer with
  | none =>
    { result := .error noDataMsg, buffer := none, disk := disk,
      submitted := none }
  | some b =>
    let usedName := name.getD defaultDeviceName
    let disk1 := disk ++ [tmpBin]
    match outcome with
    | .ok =>
      { result := .ok, buffer := none, disk := disk1.erase tmpBin,
        submitted := some (usedName, tmpBin) }
    | .fail msg =>
      { result := .error (errPre ++ msg), buffer := some b,
        disk := disk1.erase tmpBin, submitted := some (usedName, tmpBin) }

/-! ### Width arithmetic lemmas -/

/-- Visual width is additive over concatenation. -/
theorem visualWidth_append (a b : JStr) :
    visualWidth (a ++ b) = visualWidth a + visualWidth b := by
  simp [visualWidth]

/-- A run of spaces is single-width per cell. -/
theorem visualWidth_spaces (n : Nat) : visualWidth (spaces n) = n := by
  simp [visualWidth, spaces, charCells, isKorean, sp]

/-- The per-code-unit cell rule agrees with the source's
`text.length + koreanCount` arithmetic. -/
theorem visualWidth_eq (s : JStr) :
    visualWidth s = s.length + countKorean s := by
  induction s with
  | nil => simp [visualWidth, countKorean]
  | cons u t ih =>
    simp only [visualWidth, countKorean, List.map_cons, List.sum_cons,
      List.countP_cons, List.length_cons] at *
    by_cases hu : isKorean u = true
    · simp [charCells, hu] at *; omega
    · simp [charCells, hu] at *; omega

/-! ### C1 — alignText -/

/-- C1: for text strictly below the width budget, `alignText` pads with
spaces on the side selected by the mode — right pad for `left`, left pad for
`right`, split pad for `center` with the extra cell on the right — and the
result has exactly `width` visual cells; for text at or above the budget the
input is returned unchanged. -/
theorem c1_alignText_spec (s : JStr) (w : Nat) :
    (visualWidth s < w →
      alignText s strLeft w = s ++ spaces (w - visualWidth s) ∧
      alignText s strRight w = spaces (w - visualWidth s) ++ s ∧
      alignText s strCenter w =
        spaces ((w - visualWidth s) / 2) ++ s ++
          spaces (w - visualWidth s - (w - visualWidth s) / 2) ∧
      visualWidth (alignText s strLeft w) = w ∧
      visualWidth (alignText s strRight w) = w ∧
      visualWidth (alignText s strCenter w) = w ∧
      (w - visualWidth s) / 2 ≤ w - visualWidth s - (w - visualWidth s) / 2 ∧
      w - visualWidth s - (w - visualWidth s) / 2 - (w - visualWidth s) / 2 ≤ 1) ∧
    (w ≤ visualWidth s → ∀ mode : JStr, alignText s mode w = s) := by
  have hvw := visualWidth_eq s
  constructor
  · intro h
    have hcond : ¬ (w ≤ s.length + countKorean s) := by omega
    have hL : alignText s strLeft w = s ++ spaces (w - visualWidth s) := by
      simp [alignText, hcond, strLeft, strCenter, strRight, hvw]
    have hR : alignText s strRight w = spaces (w - visualWidth s) ++ s := by
      simp [alignText, hcond, strLeft, strCenter, strRight, hvw]
    have hC : alignText s strCenter w =
        spaces ((w - visualWidth s) / 2) ++ s ++
          spaces (w - visualWidth s - (w - visualWidth s) / 2) := by
      simp [alignText, hcond, strCenter, hvw]
    refine ⟨hL, hR, hC, ?_, ?_, ?_, by omega, by omega⟩
    · rw [hL, visualWidth_append, visualWidth_spaces]; omega
    · rw [hR, visualWidth_append, visualWidth_spaces]; omega
    · rw [hC, visualWidth_append, visualWidth_append, visualWidth_spaces,
        visualWidth_spaces]; omega
  · intro h mode
    have hcond : w ≤ s.length + countKorean s := by omega
    simp [alignText, hcond]

/-- Closed instance of `c1_alignText_spec`: the four-syllable store-name
fragment `'과일맛집'` has visual width 8, and centering it in 11 cells puts
one space on the left and two on the right. -/
theorem c1_alignText_spec_witness :
    visualWidth [0xACFC, 0xC77C, 0xB9DB, 0xC9D1] < 11 ∧
    alignText [0xACFC, 0xC77C, 0xB9DB, 0xC9D1] strCenter 11 =
      spaces 1 ++ [0xACFC, 0xC77C, 0xB9DB, 0xC9D1] ++ spaces 2 ∧
    5 ≤ visualWidth [0xACFC, 0xC77C, 0xB9DB, 0xC9D1] ∧
    alignText [0xACFC, 0xC77C, 0xB9DB, 0xC9D1] strCenter 5 =
      [0xACFC, 0xC77C, 0xB9DB, 0xC9D1] :=
  ⟨by decide,
   ((c1_alignText_spec [0xACFC, 0xC77C, 0xB9DB, 0xC9D1] 11).1 (by decide)).2.2.1,
   by decide,
   (c1_alignText_spec [0xACFC, 0xC77C, 0xB9DB, 0xC9D1] 5).2 (by decide) strCenter⟩

/-! ### C8 — formatRow -/

/-- C8: when the combined visual width of label and value is below `width`,
`formatRow` fills the gap with spaces and the result is exactly `width`
visual cells; at or above `width` it is the plain concatenation with no
gutter. -/
theorem c8_formatRow_spec (label value : JStr) (w : Nat) :
    (visualWidth label + visualWidth value < w →
      formatRow label value w =
        label ++ spaces (w - (visualWidth label + visualWidth value)) ++ value ∧
      visualWidth (formatRow label value w) = w) ∧
    (w ≤ visualWidth label + visualWidth value →
      formatRow label value w = label ++ value) := by
  have hl := visualWidth_eq label
  have hv := visualWidth_eq value
  constructor
  · intro h
    have heq : formatRow label value w =
        label ++ spaces (w - (visualWidth label + visualWidth value)) ++ value := by
      simp [formatRow, hl, hv]
    refine ⟨heq, ?_⟩
    rw [heq, visualWidth_append, visualWidth_append, visualWidth_spaces]
    omega
  · intro h
    have hz : w - (label.length + countKorean label +
        (value.length + countKorean value)) = 0 := by omega
    simp [formatRow, hz, spaces]

/-- Closed instance of `c8_formatRow_spec`: the totals row
`formatRow '합계:' '100원' 16` keeps 16 visual cells, and the degenerate
16-cell overflow case concatenates with no gutter. -/
theorem c8_formatRow_spec_witness :
    (visualWidth totalLbl + visualWidth (formatAmount 100) < 16 ∧
      visualWidth (formatRow totalLbl (formatAmount 100) 16) = 16) ∧
    (16 ≤ visualWidth totalLbl + visualWidth (formatAmount 1234567890123) ∧
      formatRow totalLbl (formatAmount 1234567890123) 16 =
        totalLbl ++ formatAmount 1234567890123) :=
  ⟨⟨by decide,
    ((c8_formatRow_spec totalLbl (formatAmount 100) 16).1 (by decide)).2⟩,
   ⟨by decide,
    (c8_formatRow_spec totalLbl (formatAmount 1234567890123) 16).2 (by decide)⟩⟩

/-! ### C2 — item rows -/

/-- Product name `'사과세트'` of the spec scenario. -/
def appleSet : JStr := [0xC0AC, 0xACFC, 0xC138, 0xD2B8]

/-- C2: an item row is the name field, the quantity right-aligned in 3
cells, the unit price `amount / quantity` locale-formatted in a 7-cell
field and the line amount locale-formatted in an 8-cell field; the name
field is the name left-padded to the standard 14-cell width when its
visual width is at most 14 and the 7-character prefix (padded within the
same standard field width) when it exceeds 14; the scenario item
`{productName: '사과세트', quantity: 2, amount: 20000}` yields unit price
10000 and quantity field `'  2'`.  The divisibility hypothesis is the
regime where the source's float division is the exact integer quotient. -/
theorem c2_item_row (name : JStr) (q a : Nat) (_hq : 0 < q) (hdvd : q ∣ a) :
    (a / q * q = a) ∧
    (visualWidth name ≤ 14 →
      itemRow ⟨name, q, a⟩ =
        (name ++ spaces (14 - visualWidth name)) ++
        padStart (jsStringOfNat q) 3 sp ++
        (padStart (jsLocaleString (a / q)) 7 sp ++
         padStart (jsLocaleString a) 8 sp) ∧
      visualWidth (name ++ spaces (14 - visualWidth name)) = 14) ∧
    (14 < visualWidth name →
      itemRow ⟨name, q, a⟩ =
        (name.take 7 ++ spaces (14 - visualWidth (name.take 7))) ++
        padStart (jsStringOfNat q) 3 sp ++
        (padStart (jsLocaleString (a / q)) 7 sp ++
         padStart (jsLocaleString a) 8 sp)) ∧
    (20000 / 2 = 10000 ∧
     padStart (jsStringOfNat 2) 3 sp = [sp, sp, 0x32] ∧
     itemRow ⟨appleSet, 2, 20000⟩ =
       (appleSet ++ spaces 6) ++ [sp, sp, 0x32] ++
       (padStart (jsLocaleString 10000) 7 sp ++
        padStart (jsLocaleString 20000) 8 sp)) := by
  have hvw := visualWidth_eq name
  have hvt := visualWidth_eq (name.take 7)
  refine ⟨Nat.div_mul_cancel hdvd, ?_, ?_, by decide, by decide, by decide⟩
  · intro h
    have hcond : ¬ (14 < name.length + countKorean name) := by omega
    constructor
    · simp [itemRow, hcond, hvw, List.append_assoc]
    · rw [visualWidth_append, visualWidth_spaces]; omega
  · intro h
    have hcond : 14 < name.length + countKorean name := by omega
    simp [itemRow, hcond, hvt, List.append_assoc]

/-- Closed instance of `c2_item_row` at the scenario item. -/
theorem c2_item_row_witness :
    0 < 2 ∧ (2 : Nat) ∣ 20000 ∧ visualWidth appleSet ≤ 14 ∧
    itemRow ⟨appleSet, 2, 20000⟩ =
      (appleSet ++ spaces (14 - visualWidth appleSet)) ++
      padStart (jsStringOfNat 2) 3 sp ++
      (padStart (jsLocaleString (20000 / 2)) 7 sp ++
       padStart (jsLocaleString 20000) 8 sp) :=
  ⟨by decide, by decide, by decide,
   (((c2_item_row appleSet 2 20000 (by decide) (by decide)).2.1) (by decide)).1⟩

/-! ### C3 — grand total -/

/-- C3: for every document the builder prints, inside the quad-area totals
segment, the 16-cell row whose value is the currency formatting of
`totalProductAmount + deliveryFee`; the embedded document record carries no
stored total field, so the printed total is a function of exactly those two
input fields. -/
theorem c3_total_computed (d : ReceiptData) :
    Cmd.println (formatRow totalLbl
        (formatAmount (d.totalProductAmount + d.deliveryFee)) 16)
      ∈ buildReceipt d ∧
    totalsBlock d =
      [.boldOn,
       .println (formatRow subtotalLbl (formatAmount d.totalProductAmount) 32),
       .println (formatRow (feePre ++ jsStringOfNat d.distanceKm ++ feeSuf)
                   (formatAmount d.deliveryFee) 32),
       .boldOff, .drawLine, .alignCenter, .setTextQuadArea, .boldOn,
       .println (formatRow totalLbl
                   (formatAmount (d.totalProductAmount + d.deliveryFee)) 16),
       .boldOff, .setTextNormal, .alignLeft, .drawLine] := by
  refine ⟨?_, rfl⟩
  simp [buildReceipt, totalsBlock]

/-! ### C4 / C10 — scheduled-delivery banner versus plain delivery line -/

/-- Decidable test that a command prints a line starting with `pre`. -/
def printlnStartsWith (pre : JStr) : Cmd → Bool
  | .println s => decide (s.take pre.length = pre)
  | _ => false

/-- Scenario document with a scheduled delivery at 15:05. -/
def doc15 : ReceiptData :=
  { orderId := 7, displayCode := none,
    paidAt := ⟨2026, 1, 12, 2, 8, 3⟩,
    deliveryHour := some 12, deliveryMinute := some 0,
    buyerName := [0x41], phone := [0x30, 0x31, 0x30],
    items := [⟨appleSet, 2, 20000⟩],
    totalProductAmount := 20000, deliveryFee := 3000, distanceKm := 2,
    address1 := [0x42], address2 := none,
    scheduledDeliveryHour := some 15, scheduledDeliveryMinute := some 5 }

/-- Scenario document without scheduled delivery, plain delivery at 18:30. -/
def doc18 : ReceiptData :=
  { doc15 with
    deliveryHour := some 18, deliveryMinute := some 30,
    scheduledDeliveryHour := none, scheduledDeliveryMinute := none }

/-- Document with scheduled hour 9 and an absent scheduled minute. -/
def doc9 : ReceiptData :=
  { doc15 with
    scheduledDeliveryHour := some 9, scheduledDeliveryMinute := none }

/-- C4: with the (upstream-validated) plain delivery fields present, the
builder emits the banner block and the bold arrival line exactly when a
scheduled hour is present, and emits the plain delivery line exactly when
it is absent; on the 15:05 scenario document the output has exactly one
banner line, whose time text is `'15:05'`, and no plain delivery line, and
on the 18:30 scenario document exactly one plain delivery line containing
`'18:30'` and no banner. -/
theorem c4_banner_exclusive (d : ReceiptData) (dh dm : Nat)
    (h1 : d.deliveryHour = some dh) (h2 : d.deliveryMinute = some dm) :
    (∀ h, d.scheduledDeliveryHour = some h →
      bannerBlock d =
        [.alignCenter, .setTextDoubleHeight, .boldOn,
         .println (bannerPre ++ scheduledTime d ++ bannerSuf),
         .boldOff, .setTextNormal, .alignLeft] ∧
      deliveryLineBlock d =
        [.boldOn, .println (arrivalPre ++ scheduledTime d), .boldOff] ∧
      Cmd.println (bannerPre ++ scheduledTime d ++ bannerSuf) ∈ buildReceipt d) ∧
    (d.scheduledDeliveryHour = none →
      bannerBlock d = [] ∧
      deliveryLineBlock d =
        [.boldOn, .println (deliveryPre ++ deliveryTime d), .boldOff] ∧
      Cmd.println (deliveryPre ++ deliveryTime d) ∈ buildReceipt d) ∧
    (scheduledTime doc15 = [0x31, 0x35, colon, 0x30, 0x35] ∧
     (buildReceipt doc15).countP (printlnStartsWith bannerPre) = 1 ∧
     (buildReceipt doc15).countP (printlnStartsWith deliveryPre) = 0) ∧
    (deliveryTime doc18 = [0x31, 0x38, colon, 0x33, 0x30] ∧
     (buildReceipt doc18).countP (printlnStartsWith deliveryPre) = 1 ∧
     (buildReceipt doc18).countP (printlnStartsWith bannerPre) = 0) := by
  refine ⟨?_, ?_, by decide, by decide⟩
  · intro h hs
    refine ⟨by simp [bannerBlock, isScheduled, hs],
            by simp [deliveryLineBlock, isScheduled, hs], ?_⟩
    simp [buildReceipt, bannerBlock, isScheduled, hs]
  · intro hs
    refine ⟨by simp [bannerBlock, isScheduled, hs],
            by simp [deliveryLineBlock, isScheduled, hs, h1, h2], ?_⟩
    simp [buildReceipt, orderBlock, deliveryLineBlock, isScheduled, hs, h1, h2]

/-- Closed instance of `c4_banner_exclusive` at the two scenario documents. -/
theorem c4_banner_exclusive_witness :
    (doc15.deliveryHour = some 12 ∧ doc15.deliveryMinute = some 0 ∧
     doc15.scheduledDeliveryHour = some 15 ∧
     bannerBlock doc15 =
       [.alignCenter, .setTextDoubleHeight, .boldOn,
        .println (bannerPre ++ scheduledTime doc15 ++ bannerSuf),
        .boldOff, .setTextNormal, .alignLeft]) ∧
    (doc18.deliveryHour = some 18 ∧ doc18.deliveryMinute = some 30 ∧
     doc18.scheduledDeliveryHour = none ∧
     bannerBlock doc18 = [] ∧
     deliveryLineBlock doc18 =
       [.boldOn, .println (deliveryPre ++ deliveryTime doc18), .boldOff]) :=
  ⟨⟨rfl, rfl, rfl,
    ((c4_banner_exclusive doc15 12 0 rfl rfl).1 15 rfl).1⟩,
   ⟨rfl, rfl, rfl,
    ((c4_banner_exclusive doc18 18 30 rfl rfl).2.1 rfl).1,
    ((c4_banner_exclusive doc18 18 30 rfl rfl).2.1 rfl).2.1⟩⟩

/-- C10: the builder treats an order as scheduled exactly when the
scheduled hour is non-null — in particular hour 0 (midnight) is scheduled —
and an absent scheduled minute renders as minute `00` (hour 9 gives
`'09:00'`) with the banner emitted and the arrival line, not the plain
delivery fallback. -/
theorem c10_midnight_and_default_minute (d : ReceiptData) :
    (isScheduled d = true ↔ d.scheduledDeliveryHour ≠ none) ∧
    (d.scheduledDeliveryHour = some 0 →
      isScheduled d = true ∧
      bannerBlock d ≠ [] ∧
      deliveryLineBlock d =
        [.boldOn, .println (arrivalPre ++ scheduledTime d), .boldOff]) ∧
    (∀ h, d.scheduledDeliveryHour = some h → d.scheduledDeliveryMinute = none →
      scheduledTime d = pad2 (jsStringOfNat h) ++ [colon] ++ [0x30, 0x30]) ∧
    (d.scheduledDeliveryHour = some 9 → d.scheduledDeliveryMinute = none →
      scheduledTime d = [0x30, 0x39, colon, 0x30, 0x30] ∧
      Cmd.println (bannerPre ++ [0x30, 0x39, colon, 0x30, 0x30] ++ bannerSuf)
        ∈ buildReceipt d) := by
  refine ⟨?_, ?_, ?_, ?_⟩
  · cases hs : d.scheduledDeliveryHour <;> simp [isScheduled, hs]
  · intro hs
    refine ⟨by simp [isScheduled, hs], by simp [bannerBlock, isScheduled, hs],
            by simp [deliveryLineBlock, isScheduled, hs]⟩
  · intro h hs hm
    simp [scheduledTime, hs, hm]
    decide
  · intro hs hm
    have ht : scheduledTime d = [0x30, 0x39, colon, 0x30, 0x30] := by
      simp [scheduledTime, hs, hm]; decide
    refine ⟨ht, ?_⟩
    rw [← ht]
    simp [buildReceipt, bannerBlock, isScheduled, hs]

/-- Closed instance of `c10_midnight_and_default_minute` at `doc9`. -/
theorem c10_midnight_and_default_minute_witness :
    doc9.scheduledDeliveryHour = some 9 ∧ doc9.scheduledDeliveryMinute = none ∧
    scheduledTime doc9 = [0x30, 0x39, colon, 0x30, 0x30] ∧
    Cmd.println (bannerPre ++ [0x30, 0x39, colon, 0x30, 0x30] ++ bannerSuf)
      ∈ buildReceipt doc9 :=
  ⟨rfl, rfl,
   ((c10_midnight_and_default_minute doc9).2.2.2 rfl rfl).1,
   ((c10_midnight_and_default_minute doc9).2.2.2 rfl rfl).2⟩

/-! ### C5 / C6 / C7 — spooler transmission and fallback target -/

/-- C5: a successful spooler submission clears the command buffer and
returns normally; a failed submission (spooler rejection, nonzero exit,
timeout or exception) leaves the buffer untouched and re-raises the failure
with the original message attached to the wrapped error. -/
theorem c5_buffer_on_outcome (b : JStr) (name : Option JStr) (tmp : JStr)
    (disk : List JStr) :
    ((printReceipt (some b) name tmp disk .ok).result = .ok ∧
     (printReceipt (some b) name tmp disk .ok).buffer = none) ∧
    (∀ msg,
      (printReceipt (some b) name tmp disk (.fail msg)).result =
        .error (errPre ++ msg) ∧
      (printReceipt (some b) name tmp disk (.fail msg)).buffer = some b) :=
  ⟨⟨rfl, rfl⟩, fun _ => ⟨rfl, rfl⟩⟩

/-- C6: whatever the outcome — success, failure, or the early throw on an
empty buffer — the staged temporary file for the attempt is gone when the
call returns: the set of staged files on disk is exactly what it was
before. -/
theorem c6_tmp_file_cleanup (buffer : Option JStr) (name : Option JStr)
    (tmp : JStr) (disk : List JStr) (oc : SpoolOutcome)
    (hfresh : tmp ∉ disk) :
    (printReceipt buffer name tmp disk oc).disk = disk ∧
    tmp ∉ (printReceipt buffer name tmp disk oc).disk := by
  have herase : (disk ++ [tmp]).erase tmp = disk := by
    rw [List.erase_append_right _ hfresh, List.erase_cons_head, List.append_nil]
  cases buffer with
  | none => exact ⟨rfl, hfresh⟩
  | some b =>
    cases oc with
    | ok => refine ⟨herase, ?_⟩; rw [show (printReceipt (some b) name tmp disk .ok).disk = (disk ++ [tmp]).erase tmp from rfl, herase]; exact hfresh
    | fail msg => refine ⟨herase, ?_⟩; rw [show (printReceipt (some b) name tmp disk (.fail msg)).disk = (disk ++ [tmp]).erase tmp from rfl, herase]; exact hfresh

/-- Closed instance of `c6_tmp_file_cleanup` on a concrete failing attempt. -/
theorem c6_tmp_file_cleanup_witness :
    [0x74] ∉ [[0x61]] ∧
    (printReceipt (some [0x1B]) none [0x74] [[0x61]] (.fail [0x58])).disk =
      [[0x61]] :=
  ⟨by decide,
   (c6_tmp_file_cleanup (some [0x1B]) none [0x74] [[0x61]] (.fail [0x58])
     (by decide)).1⟩

/-- Port string `'USB001'` used as a counterexample transport identifier. -/
def usb001 : JStr := [0x55, 0x53, 0x42, 0x30, 0x30, 0x31]

/-- C7 counterexample: on first resolution with Discovery yielding a port
(`USB001`) but no device name, the claim demands the fixed `LPT1` fallback,
yet the connection uses the discovered port: the interface path is
`'\\\\.\\USB001'`, not `'\\\\.\\LPT1'`.  The fallback is keyed on the port
alone, not on "either absent". -/
theorem c7_counterexample :
    (initPrinter ⟨none, none⟩ (some usb001) none).1.interfacePath =
      devPre ++ usb001 ∧
    (initPrinter ⟨none, none⟩ (some usb001) none).1.interfacePath ≠
      devPre ++ lpt1 ∧
    (initPrinter ⟨none, none⟩ (some usb001) none).2.sewooPrinterName = none :=
  ⟨rfl, by decide, rfl⟩

/-- C7 (amended): on first resolution the connection falls back to the
fixed `LPT1` port exactly when Discovery yields no transport identifier —
the device name resolving (or not) independently to whatever Discovery
returned — and a subsequent print attempt with the device name unresolved
submits to the spooler under the hard-coded default name
`'SEWOO SLK-TS 100'`; in particular when Discovery finds nothing at all the
port is `LPT1` and the print uses the default name. -/
theorem c7_fallback_amended (gName : Option JStr) (nm : Option JStr)
    (p b tmp : JStr) (disk : List JStr) (oc : SpoolOutcome) :
    ((initPrinter ⟨none, gName⟩ none nm).1.interfacePath = devPre ++ lpt1) ∧
    ((initPrinter ⟨none, gName⟩ none nm).2.sewooPrinterName = nm) ∧
    ((initPrinter ⟨none, gName⟩ (some p) nm).1.interfacePath = devPre ++ p) ∧
    ((printReceipt (some b) none tmp disk oc).submitted =
      some (defaultDeviceName, tmp)) := by
  refine ⟨rfl, rfl, rfl, ?_⟩
  cases oc <;> rfl

/-! ### C9 — width of the currency suffix -/

/-- Every code unit produced by `digitsRevAux` is an ASCII digit. -/
theorem digitsRevAux_mem {fuel n u : Nat} (h : u ∈ digitsRevAux fuel n) :
    u ≤ 0x39 := by
  induction fuel generalizing n with
  | zero => simp [digitsRevAux] at h
  | succ f ih =>
    cases n with
    | zero => simp [digitsRevAux] at h
    | succ m =>
      simp only [digitsRevAux, List.mem_cons] at h
      rcases h with h | h
      · have hlt : (m + 1) % 10 < 10 := Nat.mod_lt _ (by omega)
        omega
      · exact ih h

/-- `commaRevAux` only inserts commas: every code unit of its output is a
code unit of the input or the comma. -/
theorem commaRevAux_mem {fuel : Nat} {ds : List Nat} {u : Nat}
    (h : u ∈ commaRevAux fuel ds) : u ∈ ds ∨ u = comma := by
  induction fuel generalizing ds with
  | zero => exact Or.inl h
  | succ f ih =>
    by_cases hl : ds.length ≤ 3
    · rw [commaRevAux, if_pos hl] at h
      exact Or.inl h
    · rw [commaRevAux, if_neg hl] at h
      simp only [List.mem_append, List.mem_cons] at h
      rcases h with h | h | h
      · exact Or.inl (List.take_subset 3 ds h)
      · exact Or.inr h
      · rcases ih h with h2 | h2
        · exact Or.inl (List.drop_subset 3 ds h2)
        · exact Or.inr h2

/-- Every code unit of a locale-formatted integer is ASCII (a digit or the
comma separator), hence far below the Hangul syllable block. -/
theorem jsLocaleString_ascii {n u : Nat} (h : u ∈ jsLocaleString n) :
    u < 0xAC00 := by
  unfold jsLocaleString at h
  by_cases hn : n = 0
  · rw [if_pos hn] at h
    simp at h
    omega
  · rw [if_neg hn] at h
    rw [List.mem_reverse] at h
    rcases commaRevAux_mem h with h2 | h2
    · have := digitsRevAux_mem h2
      omega
    · rw [h2]; decide

/-- The locale digits of an amount contain no Hangul syllable. -/
theorem countKorean_locale (n : Nat) : countKorean (jsLocaleString n) = 0 := by
  refine List.countP_eq_zero.mpr ?_
  intro u hu
  have := jsLocaleString_ascii hu
  simp [isKorean]
  omega

/-- C9 counterexample: the claim says the visual-width rule used by
`alignText` and `formatRow` counts the currency suffix as one cell, but the
suffix `'원'` (U+C6D0) lies inside the double-width syllable range: the
rule gives the two-character string `'0원'` width 3, and both `alignText`
and `formatRow` pad it accordingly (one pad cell in a 4-cell budget, where
a single-width suffix would leave two). -/
theorem c9_counterexample :
    visualWidth wonSuffix = 2 ∧
    visualWidth (formatAmount 0) = 3 ∧
    (formatAmount 0).length = 2 ∧
    alignText (formatAmount 0) strLeft 4 = formatAmount 0 ++ [sp] ∧
    formatRow [] (formatAmount 0) 4 = [sp] ++ formatAmount 0 := by
  refine ⟨by decide, by decide, by decide, by decide, by decide⟩

/-- C9 (amended): `formatPrice` pads with the plain length of the formatted
string, the 2-cell rule of the layout engine applies exactly to the
designated syllable range U+AC00..U+D7A3 — digits, punctuation and Latin
letters are single-width — and since the currency suffix `'원'` lies in
that range, `alignText` and `formatRow` count it as two cells: a formatted
amount measures its plain length plus one. -/
theorem c9_suffix_width_amended (n w u : Nat) :
    formatPrice n w =
      spaces (w - (formatAmount n).length) ++ formatAmount n ∧
    (charCells u = 2 ↔ (0xAC00 ≤ u ∧ u ≤ 0xD7A3)) ∧
    charCells 0xC6D0 = 2 ∧
    visualWidth (formatAmount n) = (formatAmount n).length + 1 := by
  refine ⟨rfl, ?_, by decide, ?_⟩
  · unfold charCells isKorean
    by_cases hu : 0xAC00 ≤ u ∧ u ≤ 0xD7A3
    · simp [hu]
    · simp [hu]
  · rw [visualWidth_eq, formatAmount]
    have hck : countKorean (jsLocaleString n ++ wonSuffix) =
        countKorean (jsLocaleString n) + countKorean wonSuffix := by
      simp [countKorean]
    rw [hck, countKorean_locale]
    have hw : countKorean wonSuffix = 1 := by decide
    rw [hw]

end FruitPos
